import Mathlib

/-!
Verification of the SAM_Crop_App repository (src/app.py) against its
natural-language specification.

The application is a single Streamlit script: it initializes Earth Engine
authentication in the sidebar (halting the script on failure), accepts a KML
upload, parses it with geopandas into an area-of-interest polygon, queries the
Sentinel-2 surface-reflectance catalog through `get_sentinel_image`, and — on a
button press — exports a raster tile, runs the SamGeo2 automatic mask
generator, vectorizes the mask, and offers a download.

The shallow embedding below models:
- the imagery pipeline `get_sentinel_image` (app.py lines 110-117) over an
  explicit scene catalog with per-scene metadata and per-pixel band values;
- geometry ingestion (lines 92-100): CRS check, reprojection, and the
  first-feature / exterior-ring extraction;
- the top-to-bottom script run as an event trace (`runScript`), recording
  which stages execute, which temp files are created or deleted, when the
  remote catalog is contacted, and which device string is handed to SamGeo2.
-/

namespace SamCropApp

/-! ## Imagery catalog model

A `Scene` is one catalog image of COPERNICUS/S2_SR_HARMONIZED: the pixels it
covers (`footprint`), its acquisition date (days), its per-scene
CLOUDY_PIXEL_PERCENTAGE metadata value, and its per-pixel band samples. Pixel
locations are abstract identifiers. Each `ScenePixel` carries one
representative reflectance band value and the QA60 quality word. -/

abbrev Pix := Nat

structure ScenePixel where
  loc : Pix
  val : ℚ
  qa60 : Nat
deriving DecidableEq, Repr

structure Scene where
  footprint : List Pix
  acqDate : Nat
  cloudyPixelPercentage : ℚ
  pixels : List ScenePixel
deriving DecidableEq, Repr

abbrev ImageCollection := List Scene

/-- A composite raster: the per-pixel reduced value at each retained pixel. -/
structure Composite where
  pixels : List (Pix × ℚ)
deriving DecidableEq, Repr

/-- Embeds `.filterBounds(roi)`: keep scenes whose footprint meets the ROI. -/
def filterBounds (roi : List Pix) (c : ImageCollection) : ImageCollection :=
  c.filter (fun s => s.footprint.any (fun p => roi.contains p))

/-- Embeds `.filterDate(start, end)`: start inclusive, end exclusive
(Earth Engine convention). -/
def filterDate (startD endD : Nat) (c : ImageCollection) : ImageCollection :=
  c.filter (fun s => decide (startD ≤ s.acqDate) && decide (s.acqDate < endD))

/-- Embeds `.filter(ee.Filter.lt('CLOUDY_PIXEL_PERCENTAGE', clouds))`:
keep scenes whose cloudy-pixel percentage is strictly below the threshold. -/
def filterLtCloud (clouds : ℚ) (c : ImageCollection) : ImageCollection :=
  c.filter (fun s => decide (s.cloudyPixelPercentage < clouds))

/-- The candidate scene set after the three filters of
`get_sentinel_image` (app.py lines 111-114). -/
def candidateScenes (catalog : ImageCollection) (roi : List Pix)
    (startD endD : Nat) (clouds : ℚ) : ImageCollection :=
  filterLtCloud clouds (filterDate startD endD (filterBounds roi catalog))

/-- The time series of band values a collection holds at one pixel. -/
def valuesAt (c : ImageCollection) (p : Pix) : List ℚ :=
  c.filterMap (fun s => (s.pixels.find? (fun sp => sp.loc == p)).map
    (fun sp => sp.val))

/-- Insert into a sorted list of rationals. -/
def insertSorted (x : ℚ) : List ℚ → List ℚ
  | [] => [x]
  | y :: ys => if x ≤ y then x :: y :: ys else y :: insertSorted x ys

/-- Insertion sort on rationals. -/
def sortQ (l : List ℚ) : List ℚ := l.foldr insertSorted []

/-- Median of a list of rationals: middle element of the sorted list (mean of
the two middle elements for an even length); `none` on the empty list, since
a median reducer produces no data where the collection has no values. -/
def median (l : List ℚ) : Option ℚ :=
  let s := sortQ l
  match s with
  | [] => none
  | _ =>
    if s.length % 2 = 1 then s.get? (s.length / 2)
    else match s.get? (s.length / 2 - 1), s.get? (s.length / 2) with
      | some a, some b => some ((a + b) / 2)
      | _, _ => none

/-- Embeds `.median().clip(roi)`: the per-pixel median across the collection,
restricted to the ROI; ROI pixels with no data are absent from the result. -/
def medianReduce (roi : List Pix) (c : ImageCollection) : Composite :=
  ⟨roi.filterMap (fun p => (median (valuesAt c p)).map (fun m => (p, m)))⟩

/-- Embeds `get_sentinel_image` (app.py lines 110-117): filter by bounds, by
date window and by the per-scene cloud metadata threshold, then reduce to the
clipped per-pixel median. No per-pixel masking and no scaling occur. -/
def get_sentinel_image (catalog : ImageCollection) (roi : List Pix)
    (startD endD : Nat) (clouds : ℚ) : Composite :=
  medianReduce roi (candidateScenes catalog roi startD endD clouds)

/-! ### The acquisition step as the spec describes it (for claim C1)

Spec §4.2 additionally demands a per-pixel cloud/cirrus mask from the QA band
(bits 10 and 11 of QA60) and reflectance scaling of the retained pixels before
the median. The definitions below follow the spec's words, to be compared with
`get_sentinel_image` above. -/

/-- Test of bit `b` of a quality word. -/
def qaBit (qa b : Nat) : Bool := qa / 2 ^ b % 2 = 1

/-- Per-pixel QA mask and reflectance scaling as spec §4.2 words it: drop
pixels whose cloud (bit 10) or cirrus (bit 11) flag is set, and scale the
retained reflectances by 1/10000. -/
def maskS2clouds (s : Scene) : Scene :=
  { s with pixels :=
      ((s.pixels.filter (fun sp => !(qaBit sp.qa60 10) && !(qaBit sp.qa60 11))).map
        (fun sp => { sp with val := sp.val / 10000 })) }

/-- The acquisition pipeline as spec §4.2 describes it: the three filters,
then the per-pixel QA cloud/cirrus mask and reflectance scaling, then the
clipped median. -/
def get_sentinel_image_spec (catalog : ImageCollection) (roi : List Pix)
    (startD endD : Nat) (clouds : ℚ) : Composite :=
  medianReduce roi ((candidateScenes catalog roi startD endD clouds).map maskS2clouds)

/-- Rewrite every pixel's QA60 word of one scene to `q`, leaving footprint,
date, cloud metadata, locations and band values unchanged. -/
def setQAScene (q : Nat) (s : Scene) : Scene :=
  { s with pixels := s.pixels.map (fun sp => { sp with qa60 := q }) }

/-- Rewrite every pixel's QA60 word of every scene to `q`. -/
def setQA (q : Nat) (c : ImageCollection) : ImageCollection :=
  c.map (setQAScene q)

/-! ## Geometry ingestion model (app.py lines 92-100)

The uploaded KML is read by geopandas into a GeoDataFrame: an optional
coordinate reference system and a list of polygon features, each with an
exterior ring and possibly interior rings (holes). The code checks
`gpd_df.crs != "EPSG:4326"`, reprojects when the check fires, and then takes
`list(gpd_df.geometry[0].exterior.coords)` as the area of interest. -/

inductive CRS where
  | epsg4326 : CRS
  | other : Nat → CRS
deriving DecidableEq, Repr

structure Point where
  x : ℚ
  y : ℚ
deriving DecidableEq, Repr

structure LinearRing where
  coords : List Point
deriving DecidableEq, Repr

structure Polygon where
  exterior : LinearRing
  interiors : List LinearRing
deriving DecidableEq, Repr

structure GeoDataFrame where
  crs : Option CRS
  geometry : List Polygon
deriving DecidableEq, Repr

/-- Apply a coordinate transformation to every vertex of a ring. -/
def mapRing (f : Point → Point) (r : LinearRing) : LinearRing :=
  ⟨r.coords.map f⟩

/-- Apply a coordinate transformation to every ring of a polygon. -/
def mapPolygon (f : Point → Point) (p : Polygon) : Polygon :=
  ⟨mapRing f p.exterior, p.interiors.map (mapRing f)⟩

/-- Embeds geopandas `to_crs`: fails when the frame has no source CRS, else
maps every coordinate through the reprojection `proj src target` and records
the new CRS. The reprojection itself is an external collaborator, passed in
as a function. -/
def GeoDataFrame.to_crs (proj : CRS → CRS → Point → Point)
    (gdf : GeoDataFrame) (target : CRS) : Option GeoDataFrame :=
  match gdf.crs with
  | none => none
  | some src => some ⟨some target, gdf.geometry.map (mapPolygon (proj src target))⟩

/-- The area-of-interest polygon handed to `ee.Geometry.Polygon`, together
with the CRS its coordinates are expressed in. -/
structure AreaOfInterest where
  crs : Option CRS
  coords : List Point
deriving DecidableEq, Repr

/-- Embeds app.py lines 92-100: reproject to EPSG:4326 when the recorded CRS
differs, then take the exterior-ring coordinates of the first feature.
`none` models the exception path (missing CRS, or no features), which the
code catches and turns into an error message plus `st.stop()`. -/
def parseAOI (proj : CRS → CRS → Point → Point)
    (gdf : GeoDataFrame) : Option AreaOfInterest :=
  let reprojected : Option GeoDataFrame :=
    if gdf.crs ≠ some CRS.epsg4326 then gdf.to_crs proj CRS.epsg4326 else some gdf
  match reprojected with
  | none => none
  | some g =>
    match g.geometry with
    | [] => none
    | p :: _ => some ⟨g.crs, p.exterior.coords⟩

/-! ## The script run as an event trace

app.py is one top-to-bottom Streamlit script. `runScript` records its
observable actions as a list of events: pipeline stages reached, temp-file
creations and deletions, the remote catalog query issued when the preview map
renders the Earth Engine image, the device string handed to `SamGeo2`, error
messages, and `st.stop()`. The event alphabet also contains
`imageryUnavailable`, a distinguishable empty-result condition, so that the
spec's requirement about it is statable; whether the script ever emits it is
a theorem, not a definition. -/

inductive Stage where
  | ingest
  | acquire
  | segment
  | vectorize
  | exportArtifact
deriving DecidableEq, Repr

inductive FileId where
  | kmlTmp
  | rasterTile
  | maskFile
  | vectorFile
deriving DecidableEq, Repr

inductive ErrKind where
  | geeInit
  | kmlParse
  | processing
deriving DecidableEq, Repr

inductive Event where
  | stageRun : Stage → Event
  | fileCreated : FileId → Event
  | fileDeleted : FileId → Event
  | catalogQuery : Event
  | imageryUnavailable : Event
  | samInit : String → Event
  | errorShown : ErrKind → Event
  | stopped : Event
deriving DecidableEq, Repr

/-- The environment of one script run: everything the script reads from the
outside world. `readFileResult` is what `gpd.read_file` returns on the saved
upload (`none` models a parse exception); `rasterize` maps the AOI polygon to
its pixel footprint in catalog space; `useGpuChecked` is the value the GPU
checkbox returns; `gpuAvailable` is whether a GPU actually exists (the code
never reads it); `segOk` is whether the segmentation backend succeeds. -/
structure Env where
  authOk : Bool
  uploaded : Bool
  readFileResult : Option GeoDataFrame
  proj : CRS → CRS → Point → Point
  rasterize : List Point → List Pix
  catalog : ImageCollection
  startDate : Nat
  endDate : Nat
  cloudCover : ℚ
  runButton : Bool
  useGpuChecked : Bool
  gpuAvailable : Bool
  segOk : Bool

/-- Events of the button handler (app.py lines 141-208): export the raster
tile into the fresh temp directory, initialize SamGeo2 with the device chosen
by the checkbox, then generate the mask, vectorize it and offer the download;
any exception in the block is caught and shown as a generic processing
error. No file is ever deleted. -/
def segmentBlock (e : Env) : List Event :=
  [Event.fileCreated FileId.rasterTile,
   Event.samInit (if e.useGpuChecked then "cuda" else "cpu")] ++
  (if e.segOk then
      [Event.stageRun Stage.segment,
       Event.fileCreated FileId.maskFile,
       Event.stageRun Stage.vectorize,
       Event.fileCreated FileId.vectorFile,
       Event.stageRun Stage.exportArtifact]
    else [Event.errorShown ErrKind.processing])

/-- Events of the main body (app.py lines 83-211): save the upload to a temp
KML file, parse it into the AOI (error plus stop on failure), build the
Sentinel-2 composite and render the preview map (which issues the remote
catalog query), then run the button handler when the button was pressed. -/
def mainBlock (e : Env) : List Event :=
  if e.uploaded then
    Event.fileCreated FileId.kmlTmp ::
    (match e.readFileResult.bind (parseAOI e.proj) with
      | none => [Event.errorShown ErrKind.kmlParse, Event.stopped]
      | some _ =>
        Event.stageRun Stage.ingest ::
        Event.stageRun Stage.acquire ::
        Event.catalogQuery ::
        (if e.runButton then segmentBlock e else []))
  else []

/-- One top-to-bottom run of app.py: the sidebar authentication first; on
failure the error is shown and `st.stop()` halts the script before anything
else runs. -/
def runScript (e : Env) : List Event :=
  if e.authOk then mainBlock e
  else [Event.errorShown ErrKind.geeInit, Event.stopped]

/-- The set of files existing on disk after a run, starting from an empty
temp directory: files created and not subsequently deleted. -/
def filesAfter (tr : List Event) : List FileId :=
  tr.foldl (fun acc ev =>
    match ev with
    | Event.fileCreated f => if acc.contains f then acc else acc ++ [f]
    | Event.fileDeleted f => acc.filter (fun g => g ≠ f)
    | _ => acc) []

/-- Recognizes pipeline-stage events in a trace. -/
def isStageRun : Event → Bool
  | Event.stageRun _ => true
  | _ => false

/-! ## Concrete fixtures -/

/-- A small square boundary polygon with no holes. -/
def polyDemo : Polygon := ⟨⟨[⟨0, 0⟩, ⟨0, 1⟩, ⟨1, 1⟩, ⟨0, 0⟩]⟩, []⟩

/-- A GeoDataFrame already in the geographic frame, one feature. -/
def gdfDemo : GeoDataFrame := ⟨some CRS.epsg4326, [polyDemo]⟩

/-- A trivial reprojection collaborator. -/
def projId : CRS → CRS → Point → Point := fun _ _ pt => pt

/-- A scene whose only pixel has the QA60 opaque-cloud bit (bit 10) set. -/
def sceneCloudy : Scene := ⟨[0], 5, 5, [⟨0, 5000, 1024⟩]⟩

/-- A scene whose only pixel is clear (QA60 = 0). -/
def sceneClear : Scene := ⟨[0], 6, 8, [⟨0, 2000, 0⟩]⟩

/-- The same boundary recorded in a projected (non-geographic) frame. -/
def gdfUTM : GeoDataFrame := ⟨some (CRS.other 32643), [polyDemo]⟩

/-- A fully successful run environment: authentication succeeds, a parseable
KML is uploaded, one clear scene matches the filters, the button is pressed,
the GPU checkbox is left at its default (unchecked), and the segmentation
backend succeeds. -/
def envBase : Env :=
  { authOk := true
    uploaded := true
    readFileResult := some gdfDemo
    proj := projId
    rasterize := fun _ => [0]
    catalog := [sceneClear]
    startDate := 0
    endDate := 10
    cloudCover := 10
    runButton := true
    useGpuChecked := false
    gpuAvailable := false
    segOk := true }

/-- A run whose sidebar authentication fails. -/
def envAuthFail : Env := { envBase with authOk := false }

/-- A run with the start date strictly after the end date. -/
def envBadDates : Env := { envBase with startDate := 10, endDate := 5 }

/-- A run against a catalog in which no scene exists at all, so zero scenes
satisfy the filters. -/
def envNoScenes : Env := { envBase with catalog := [] }

/-- A successful run on a machine where a GPU is available but the checkbox
is left at its default (unchecked). -/
def envGpu : Env := { envBase with gpuAvailable := true }

/-- A run whose uploaded file fails to parse. -/
def envParseFail : Env := { envBase with readFileResult := none }

/-- A run whose segmentation backend fails mid-pipeline. -/
def envSegFail : Env := { envBase with segOk := false }

/-! ## Helper lemmas -/

/-- Reducing an empty collection yields a composite with no data. -/
theorem medianReduce_nil (roi : List Pix) : (medianReduce roi []).pixels = [] := by
  apply List.filterMap_eq_nil_iff.mpr
  intro p _
  rfl

/-- Scenes surviving the bounds and date filters come from the catalog. -/
theorem mem_catalog_of_mem_filtered {cat : ImageCollection} {roi : List Pix}
    {sD eD : Nat} {s : Scene} (hs : s ∈ filterDate sD eD (filterBounds roi cat)) :
    s ∈ cat :=
  List.mem_of_mem_filter (List.mem_of_mem_filter hs)

/-! ## Claims about the scene filters -/

/-- Claim C6: for thresholds t1 ≤ t2 over the same area, date window and
catalog, every candidate scene selected at threshold t1 is also selected at
threshold t2 — lowering the threshold never adds scenes. -/
theorem claim_C6_cloud_filter_monotone (cat : ImageCollection) (roi : List Pix)
    (sD eD : Nat) (t1 t2 : ℚ) (h : t1 ≤ t2) :
    candidateScenes cat roi sD eD t1 ⊆ candidateScenes cat roi sD eD t2 := by
  intro s hs
  unfold candidateScenes filterLtCloud at hs ⊢
  rw [List.mem_filter] at hs ⊢
  refine ⟨hs.1, ?_⟩
  have h1 : s.cloudyPixelPercentage < t1 := of_decide_eq_true hs.2
  exact decide_eq_true (lt_of_lt_of_le h1 h)

/-- Witness for C6 at a concrete catalog and the thresholds 9 ≤ 10. -/
theorem claim_C6_witness :
    sceneClear ∈ candidateScenes [sceneClear] [0] 0 10 10 :=
  claim_C6_cloud_filter_monotone [sceneClear] [0] 0 10 9 10 (by norm_num)
    (by decide)

/-- Claim C9: with threshold exactly 0 the strict metadata comparison
`CLOUDY_PIXEL_PERCENTAGE < 0` keeps no scene of a catalog whose percentages
are nonnegative, so the candidate set and the resulting composite are empty
for every area and date range. -/
theorem claim_C9_zero_threshold_empty (cat : ImageCollection) (roi : List Pix)
    (sD eD : Nat) (h : ∀ s ∈ cat, 0 ≤ s.cloudyPixelPercentage) :
    candidateScenes cat roi sD eD 0 = [] ∧
    (get_sentinel_image cat roi sD eD 0).pixels = [] := by
  have h1 : candidateScenes cat roi sD eD 0 = [] := by
    unfold candidateScenes filterLtCloud
    apply List.filter_eq_nil_iff.mpr
    intro s hs
    have h0 : 0 ≤ s.cloudyPixelPercentage := h s (mem_catalog_of_mem_filtered hs)
    simp only [decide_eq_true_eq]
    exact not_lt.mpr h0
  refine ⟨h1, ?_⟩
  unfold get_sentinel_image
  rw [h1]
  exact medianReduce_nil roi

/-- Witness for C9 on a one-scene catalog with nonnegative cloud metadata. -/
theorem claim_C9_witness :
    candidateScenes [sceneClear] [0] 0 10 0 = [] ∧
    (get_sentinel_image [sceneClear] [0] 0 10 0).pixels = [] :=
  claim_C9_zero_threshold_empty [sceneClear] [0] 0 10 (by decide)

/-! ## Claim C1: the acquisition step versus the spec's masked pipeline -/

/-- Filtering commutes with mapping a function the predicate ignores. -/
theorem filter_map_comm {α : Type} (g : α → α) (p : α → Bool)
    (h : ∀ a, p (g a) = p a) : ∀ l : List α, (l.map g).filter p = (l.filter p).map g
  | [] => rfl
  | a :: t => by
    by_cases hp : p a = true
    · simp [List.filter_cons, h a, hp, filter_map_comm g p h t]
    · simp [List.filter_cons, h a, hp, filter_map_comm g p h t]

/-- The three metadata filters read only footprint, date and cloud metadata,
so they commute with the QA rewrite. -/
theorem candidateScenes_setQA (q : Nat) (cat : ImageCollection) (roi : List Pix)
    (sD eD : Nat) (cl : ℚ) :
    candidateScenes (setQA q cat) roi sD eD cl =
      setQA q (candidateScenes cat roi sD eD cl) := by
  unfold candidateScenes setQA filterBounds filterDate filterLtCloud
  rw [filter_map_comm (setQAScene q)
      (fun s => s.footprint.any (fun p => roi.contains p)) (fun a => rfl),
    filter_map_comm (setQAScene q)
      (fun s => decide (sD ≤ s.acqDate) && decide (s.acqDate < eD)) (fun a => rfl),
    filter_map_comm (setQAScene q)
      (fun s => decide (s.cloudyPixelPercentage < cl)) (fun a => rfl)]

/-- Lookup commutes with mapping a function the predicate ignores. -/
theorem find?_map_comm {α : Type} (g : α → α) (p : α → Bool)
    (h : ∀ a, p (g a) = p a) : ∀ l : List α, (l.map g).find? p = (l.find? p).map g
  | [] => rfl
  | a :: t => by
    by_cases hp : p a = true
    · have hg : p (g a) = true := by rw [h a]; exact hp
      rw [List.map_cons, List.find?_cons_of_pos _ hg, List.find?_cons_of_pos _ hp]
      rfl
    · have hp' : ¬ p a = true := hp
      have hg : ¬ p (g a) = true := by rw [h a]; exact hp'
      rw [List.map_cons, List.find?_cons_of_neg _ hg, List.find?_cons_of_neg _ hp',
        find?_map_comm g p h t]

/-- The per-pixel time series is unaffected by rewriting QA words. -/
theorem valuesAt_setQA (q : Nat) (p : Pix) : ∀ c : ImageCollection,
    valuesAt (setQA q c) p = valuesAt c p
  | [] => rfl
  | s :: rest => by
    have ih := valuesAt_setQA q p rest
    unfold valuesAt setQA setQAScene at ih ⊢
    simp only [List.map_cons, List.filterMap_cons]
    rw [find?_map_comm (fun sp => { sp with qa60 := q })
        (fun sp => sp.loc == p) (fun a => rfl) s.pixels,
      Option.map_map,
      show ((fun (sp : ScenePixel) => sp.val) ∘ (fun sp => { sp with qa60 := q })) =
        (fun (sp : ScenePixel) => sp.val) from rfl,
      ih]

/-- The clipped median composite is unaffected by rewriting QA words. -/
theorem medianReduce_setQA (q : Nat) (roi : List Pix) (c : ImageCollection) :
    medianReduce roi (setQA q c) = medianReduce roi c := by
  unfold medianReduce
  congr 1
  induction roi with
  | nil => rfl
  | cons p ps ih => simp only [List.filterMap_cons, valuesAt_setQA, ih]

/-- Claim C1 counterexample: on a one-scene catalog whose only pixel carries
the QA60 opaque-cloud flag (bit 10) and raw value 5000, the code's
`get_sentinel_image` keeps the flagged pixel with its raw value, while the
spec's masked-and-scaled pipeline returns no data at all — the acquisition
step does not implement the spec's per-pixel masking and scaling. -/
theorem claim_C1_counterexample :
    (get_sentinel_image [sceneCloudy] [0] 0 10 10).pixels = [(0, 5000)] ∧
    (get_sentinel_image_spec [sceneCloudy] [0] 0 10 10).pixels = [] := by decide

/-- Claim C1 amended: the acquisition step only filters scenes by bounds,
date window and the per-scene cloud metadata threshold and reduces directly
to the clipped per-pixel median; it applies no per-pixel QA cloud/cirrus mask
and no reflectance scaling — its output is invariant under arbitrary
rewriting of every pixel's QA band. -/
theorem claim_C1_no_qa_mask (q : Nat) (cat : ImageCollection) (roi : List Pix)
    (sD eD : Nat) (cl : ℚ) :
    get_sentinel_image (setQA q cat) roi sD eD cl =
      get_sentinel_image cat roi sD eD cl := by
  unfold get_sentinel_image
  rw [candidateScenes_setQA, medianReduce_setQA]

/-! ## Claim C2: temp-file cleanup -/

/-- Claim C2: the uploaded-KML temp file and the model-backend raster, mask
and vector outputs all still exist after a fully successful run; the KML temp
file also survives the parse-failure exit, and the raster tile survives a
mid-pipeline segmentation failure. The code never deletes any of them. -/
theorem claim_C2_temp_files_remain :
    (filesAfter (runScript envBase)).contains FileId.kmlTmp = true ∧
    (filesAfter (runScript envBase)).contains FileId.rasterTile = true ∧
    (filesAfter (runScript envBase)).contains FileId.maskFile = true ∧
    (filesAfter (runScript envBase)).contains FileId.vectorFile = true ∧
    (filesAfter (runScript envParseFail)).contains FileId.kmlTmp = true ∧
    (filesAfter (runScript envSegFail)).contains FileId.kmlTmp = true ∧
    (filesAfter (runScript envSegFail)).contains FileId.rasterTile = true := by
  decide

/-! ## Claim C3: start date after end date -/

/-- Claim C3 counterexample: with the start date strictly after the end date
the script still issues the remote catalog query — no rejection happens
before the remote call. -/
theorem claim_C3_counterexample :
    envBadDates.endDate < envBadDates.startDate ∧
    (runScript envBadDates).contains Event.catalogQuery = true := by decide

/-- Claim C3 amended: the system performs no date-order validation; an
inverted window simply reaches the catalog's date filter, whose
start-inclusive/end-exclusive test is then unsatisfiable, so the candidate
scene set and the composite are empty. -/
theorem claim_C3_empty_window (cat : ImageCollection) (roi : List Pix)
    (sD eD : Nat) (cl : ℚ) (h : eD < sD) :
    candidateScenes cat roi sD eD cl = [] ∧
    (get_sentinel_image cat roi sD eD cl).pixels = [] := by
  have h1 : filterDate sD eD (filterBounds roi cat) = [] := by
    unfold filterDate
    apply List.filter_eq_nil_iff.mpr
    intro s _
    simp only [Bool.and_eq_true, decide_eq_true_eq, not_and]
    intro h2 h3
    omega
  have h2 : candidateScenes cat roi sD eD cl = [] := by
    unfold candidateScenes
    rw [h1]
    rfl
  refine ⟨h2, ?_⟩
  unfold get_sentinel_image
  rw [h2]
  exact medianReduce_nil roi

/-- Witness for the amended C3 at the concrete inverted window 10 > 5. -/
theorem claim_C3_witness :
    candidateScenes [sceneClear] [0] 10 5 10 = [] ∧
    (get_sentinel_image [sceneClear] [0] 10 5 10).pixels = [] :=
  claim_C3_empty_window [sceneClear] [0] 10 5 10 (by norm_num)

/-! ## Claim C4: empty-result condition -/

/-- Claim C4 counterexample: with a catalog in which zero scenes satisfy the
filters, the run surfaces no distinguishable empty-result condition and still
reaches the segmentation stage on the empty composite. -/
theorem claim_C4_counterexample :
    candidateScenes envNoScenes.catalog [0] envNoScenes.startDate
        envNoScenes.endDate envNoScenes.cloudCover = [] ∧
    (runScript envNoScenes).contains (Event.stageRun Stage.segment) = true ∧
    (runScript envNoScenes).contains Event.imageryUnavailable = false := by decide

/-- Claim C4 amended: no run of the script ever surfaces a distinguishable
empty-result condition — the empty composite flows on unchecked, and any
downstream failure is reported as a generic processing error. -/
theorem claim_C4_no_empty_condition (e : Env) :
    (runScript e).contains Event.imageryUnavailable = false := by
  have hmem : Event.imageryUnavailable ∉ runScript e := by
    unfold runScript mainBlock segmentBlock
    cases hP : e.readFileResult.bind (parseAOI e.proj) <;>
      by_cases hA : e.authOk <;> by_cases hU : e.uploaded <;>
        by_cases hB : e.runButton <;> by_cases hS : e.segOk <;>
        simp [hA, hU, hB, hS]
  simpa using hmem

/-! ## Claim C5: geographic reference frame of the ingested AOI -/

/-- Claim C5: every successfully ingested area of interest has its
coordinates recorded in the geographic frame EPSG:4326, whatever the
uploaded file's original reference frame was. -/
theorem claim_C5_geographic_frame (proj : CRS → CRS → Point → Point)
    (gdf : GeoDataFrame) (aoi : AreaOfInterest)
    (h : parseAOI proj gdf = some aoi) : aoi.crs = some CRS.epsg4326 := by
  obtain ⟨acrs, acoords⟩ := aoi
  rcases gdf with ⟨crs, geoms⟩
  cases crs with
  | none => simp [parseAOI, GeoDataFrame.to_crs] at h
  | some src =>
    by_cases hs : src = CRS.epsg4326
    · subst hs
      cases geoms with
      | nil => simp [parseAOI] at h
      | cons p rest =>
        simp [parseAOI] at h
        exact h.1.symm
    · cases geoms with
      | nil => simp [parseAOI, GeoDataFrame.to_crs, hs] at h
      | cons p rest =>
        simp [parseAOI, GeoDataFrame.to_crs, hs] at h
        exact h.1.symm

/-- Witness for C5: a file recorded in a projected frame (EPSG:32643) is
ingested and comes out tagged EPSG:4326. -/
theorem claim_C5_witness :
    (⟨some CRS.epsg4326, polyDemo.exterior.coords⟩ : AreaOfInterest).crs =
      some CRS.epsg4326 :=
  claim_C5_geographic_frame projId gdfUTM
    ⟨some CRS.epsg4326, polyDemo.exterior.coords⟩ (by decide)

/-! ## Claim C7: fatal authentication failure -/

/-- Claim C7: when sidebar authentication fails, the script halts and its
trace contains no pipeline-stage event at all — no ingestion, acquisition,
segmentation, vectorization or export ever runs. -/
theorem claim_C7_auth_failure_halts (e : Env) (h : e.authOk = false) :
    (runScript e).all (fun ev => !(isStageRun ev)) = true := by
  unfold runScript
  rw [h]
  rfl

/-- Witness for C7 at a concrete run with failing authentication. -/
theorem claim_C7_witness :
    (runScript envAuthFail).all (fun ev => !(isStageRun ev)) = true :=
  claim_C7_auth_failure_halts envAuthFail rfl

/-! ## Claim C8: compute device selection -/

/-- Claim C8 counterexample: on a machine where a GPU is available, a run
with the checkbox at its default still hands the device string cpu to the
model and never hands it cuda — the device does not follow GPU
availability. -/
theorem claim_C8_counterexample :
    (runScript envGpu).contains (Event.samInit "cpu") = true ∧
    envGpu.gpuAvailable = true ∧
    (runScript envGpu).contains (Event.samInit "cuda") = false := by decide

/-- Claim C8 amended: the device handed to the model is cuda exactly when
the Use GPU checkbox is checked (its default is unchecked) and cpu
otherwise; actual GPU availability is never consulted. -/
theorem claim_C8_device_from_checkbox (e : Env) (d : String)
    (h : Event.samInit d ∈ runScript e) :
    d = (if e.useGpuChecked then "cuda" else "cpu") := by
  unfold runScript mainBlock segmentBlock at h
  cases hP : e.readFileResult.bind (parseAOI e.proj) <;> rw [hP] at h <;>
    by_cases hA : e.authOk <;> by_cases hU : e.uploaded <;>
      by_cases hB : e.runButton <;> by_cases hS : e.segOk <;>
      simp [hA, hU, hB, hS] at h <;> exact h

/-- Witness for the amended C8: in the default full run the device handed to
the model is cpu, matching the unchecked checkbox. -/
theorem claim_C8_witness :
    ("cpu" : String) = (if envBase.useGpuChecked then "cuda" else "cpu") :=
  claim_C8_device_from_checkbox envBase "cpu" (by decide)

/-! ## Claim C10: first feature, exterior ring only -/

/-- Claim C10: ingestion takes exactly the exterior-ring coordinates of the
first feature — any further features and all interior rings are absent from
the result. -/
theorem claim_C10_first_feature_exterior (proj : CRS → CRS → Point → Point)
    (p : Polygon) (rest : List Polygon) :
    parseAOI proj ⟨some CRS.epsg4326, p :: rest⟩ =
      some ⟨some CRS.epsg4326, p.exterior.coords⟩ := by
  rfl

end SamCropApp
